import Mathlib

/-!
A shallow embedding of the retry, prompting, and extraction logic of
`src/university-syllabus-scraper.py`, with theorems checking the specified
behaviour of each component.

Conventions of the embedding:

* Texts are Lean `String` values; the Python substring test `t in s` is the
  executable `containsSub` below, applied to the character lists.
* A retry loop interacts with a browser whose DOM may change between
  attempts, so each loop takes an environment `Nat → ...` giving the
  observable outcome of attempt number `i` (an exception that the loop
  catches, or the option list that the attempt sees).
* Code that catches every exception is embedded as a total function; a
  raised-and-caught exception is one of the explicit outcome constructors.
* `input()` streams are lists of strings; a prompting loop consumes the list
  and either returns a choice or runs out of scripted inputs (`none` /
  `pending`), and an uncaught error is an explicit `crash` result.
-/

/-- The characters removed by the option-text cleanup in
`safe_select_by_text` (line 114: `opt.text.replace(" ", "").replace("　", "")`):
the standard space and the full-width space U+3000, and nothing else. -/
def isStrippedSpace (c : Char) : Bool := c == ' ' || c == '　'

/-- `opt.text.replace(" ", "").replace("　", "")` from line 114: removing every
standard space and then every full-width space is removing every character
satisfying `isStrippedSpace`. -/
def stripSpaces (s : String) : String :=
  ⟨s.data.filter (fun c => !isStrippedSpace c)⟩

/-- Whether `t` occurs at the head of `s`, used to build the Python substring
test. -/
def leadMatch : List Char → List Char → Bool
  | [], _ => true
  | _ :: _, [] => false
  | a :: as, b :: bs => a == b && leadMatch as bs

/-- The Python substring test `t in s` on character lists: `t` occurs
contiguously somewhere in `s`. -/
def containsSub (target : List Char) : List Char → Bool
  | [] => target.isEmpty
  | c :: rest => leadMatch target (c :: rest) || containsSub target rest

/-- The per-option test of line 114:
`target_text in opt.text.replace(" ", "").replace("　", "")`. -/
def optMatches (target optText : String) : Bool :=
  containsSub target.data (stripSpaces optText).data

/-- The scan of lines 113-116: iterate over the options in list order and stop
at the first one whose cleaned text contains the target, remembering its raw
text (`found_text = opt.text; break`). -/
def findFirstMatch (target : String) (opts : List String) : Option String :=
  opts.find? (fun t => optMatches target t)

/-- Observable outcome of one attempt of `safe_select_by_text` (lines 104-126):
either some exception is raised while locating the element or while selecting
(caught by `except Exception` at line 125), or the element is located and
exposes the given option texts; `selOk` records whether the
`select_by_visible_text` call at line 119 would go through without raising. -/
inductive AttemptEnv where
  | raise
  | options (opts : List String) (selOk : Bool)
deriving DecidableEq

/-- The retry loop of `safe_select_by_text` (lines 104-126): at each attempt,
re-locate the element and re-enumerate its options; select and return the
first match when one exists, otherwise sleep and retry.  The result is the
raw text of the selected option (`some`), or `none` for the `return False` at
line 128.  `fuel` is the number of attempts left, `i` the current attempt
index. -/
def selectLoop (env : Nat → AttemptEnv) (target : String) : Nat → Nat → Option String
  | 0, _ => none
  | fuel + 1, i =>
    match env i with
    | AttemptEnv.raise => selectLoop env target fuel (i + 1)
    | AttemptEnv.options opts selOk =>
      match findFirstMatch target opts with
      | some t => if selOk then some t else selectLoop env target fuel (i + 1)
      | none => selectLoop env target fuel (i + 1)

/-- `safe_select_by_text(driver, element_id, target_text, max_retries)` from
lines 90-128, with the browser abstracted into the per-attempt environment.
`some t` means the function selected the option with raw text `t` and returned
`True`; `none` means it returned `False`. -/
def safe_select_by_text (env : Nat → AttemptEnv) (target : String)
    (max_retries : Nat) : Option String :=
  selectLoop env target max_retries 0

/-- Observable outcome of one attempt of `safe_send_keys` (lines 71-84):
the wait/clear/send sequence succeeds, or it raises
`StaleElementReferenceException`/`TimeoutException` (caught at line 80), or it
raises any other exception (caught at line 82). -/
inductive SendAttempt where
  | ok
  | staleOrTimeout
  | otherError
deriving DecidableEq

/-- The retry loop of `safe_send_keys` (lines 71-87): return `True` on the
first successful attempt, otherwise sleep and retry; after the last attempt
return `False` (line 87). -/
def sendLoop (env : Nat → SendAttempt) : Nat → Nat → Bool
  | 0, _ => false
  | fuel + 1, i =>
    match env i with
    | SendAttempt.ok => true
    | SendAttempt.staleOrTimeout => sendLoop env fuel (i + 1)
    | SendAttempt.otherError => sendLoop env fuel (i + 1)

/-- `safe_send_keys(driver, element_id, text, max_retries)` from lines 56-87,
with the browser abstracted into the per-attempt environment.  Every
exception inside an attempt is caught by one of the two `except` clauses, so
the embedding is a total Boolean function: no exception propagates to the
caller. -/
def safe_send_keys (env : Nat → SendAttempt) (max_retries : Nat) : Bool :=
  sendLoop env max_retries 0

/-- Python `str.isdigit` on one character, restricted to the character ranges
relevant here: ASCII digits, full-width digits U+FF10-U+FF19, and the
superscript digits, which are the `Numeric_Type=Digit` characters a year
entry could plausibly contain. -/
def pyIsDigitChar (c : Char) : Bool :=
  c.isDigit
  || (decide (0xFF10 ≤ c.toNat) && decide (c.toNat ≤ 0xFF19))
  || decide (c.toNat = 0xB2) || decide (c.toNat = 0xB3) || decide (c.toNat = 0xB9)
  || decide (c.toNat = 0x2070)
  || (decide (0x2074 ≤ c.toNat) && decide (c.toNat ≤ 0x2079))

/-- Python `str.isdigit`: non-empty and every character is a digit. -/
def pyIsdigit (s : String) : Bool :=
  !s.data.isEmpty && s.data.all pyIsDigitChar

/-- The year prompt loop of `main` (lines 217-223), applied to the stream of
operator inputs: accept the input when `in_year.isdigit() and len(in_year) == 4`,
default the empty input to `"2025"`, otherwise prompt again.  `none` means the
scripted inputs ran out with the loop still running. -/
def yearLoop : List String → Option String
  | [] => none
  | s :: rest =>
    if pyIsdigit s && s.length == 4 then some s
    else if s = "" then some "2025"
    else yearLoop rest

/-- Python whitespace for `str.strip` / `str.isspace`, restricted to the
characters that occur in practice: ASCII whitespace, no-break space and the
full-width space U+3000. -/
def pyIsSpace (c : Char) : Bool :=
  c == ' ' || c == '\t' || c == '\n' || c == '\r' || c == '\x0b' || c == '\x0c'
  || c == '\u00A0' || c == '　'

/-- Python `str.strip()`: drop whitespace from both ends. -/
def pyStrip (s : String) : String :=
  ⟨((s.data.dropWhile pyIsSpace).reverse.dropWhile pyIsSpace).reverse⟩

/-- `.replace("\n", "")` from line 326: drop every newline character. -/
def stripNewlines (s : String) : String :=
  ⟨s.data.filter (fun c => !(c == '\n'))⟩

/-- Modelled from the spec, for comparison with the source behaviour only:
"stripping all whitespace (including both standard and full-width space
characters)" — removal of every whitespace character (tab and newline
included), rather than only the two space characters that line 114 of the
source removes. -/
def specStripAllWhitespace (s : String) : String :=
  ⟨s.data.filter (fun c => !pyIsSpace c)⟩

/-- One output record of the extraction loop (lines 332-338). -/
structure Record where
  nendo : String
  gakubu : String
  kamoku : String
  kyoin : String
  youbiJigen : String
deriving DecidableEq

/-- The body of the extraction loop for one row (lines 321-340).  A row is a
list of cell texts.  The guard `len(cells) < 7` skips short rows; the cell
accesses `cells[3]`, `cells[5]`, `cells[6]` are embedded as `List.get?`, and
`none` in the fallback branch is the `except Exception: continue` path that an
out-of-range access would take; rows whose stripped subject cell is empty are
skipped. -/
def rowRecord (in_year target_dept : String) (cells : List String) : Option Record :=
  if cells.length < 7 then none
  else
    match cells.get? 3, cells.get? 5, cells.get? 6 with
    | some c3, some c5, some c6 =>
      let period := stripNewlines (pyStrip c3)
      let subject := pyStrip c5
      let teacher := pyStrip c6
      if subject = "" then none
      else some ⟨in_year, target_dept, subject, teacher, period⟩
    | _, _, _ => none

/-- The extraction loop of lines 320-340: visit the parsed rows in table
order and append the record of each retained row to `current_data`. -/
def extractRows (in_year target_dept : String) : List (List String) → List Record
  | [] => []
  | row :: rest =>
    match rowRecord in_year target_dept row with
    | some r => r :: extractRows in_year target_dept rest
    | none => extractRows in_year target_dept rest

/-- Observable outcome of one polling iteration in `set_dropdown_field`
(lines 176-185): locating the element or enumerating its options raises
(caught at line 184), or the enumeration yields the given option texts. -/
inductive PollAttempt where
  | err
  | opts (l : List String)
deriving DecidableEq

/-- The polling loop of lines 176-185: up to `fuel` iterations, re-enumerate
the option texts into `options_text` (the accumulator `acc`); stop as soon as
more than one option is visible, keeping the latest enumeration otherwise. -/
def pollLoop (env : Nat → PollAttempt) : Nat → Nat → List String → List String
  | 0, _, acc => acc
  | fuel + 1, i, acc =>
    match env i with
    | PollAttempt.err => pollLoop env fuel (i + 1) acc
    | PollAttempt.opts l =>
      if l.length > 1 then l else pollLoop env fuel (i + 1) l

/-- The option list that `set_dropdown_field` presents to the operator
(lines 176-189): the result of the 10-iteration polling loop, replaced by the
single-element sentinel list `["指示なし"]` when the loop never enumerated any
option (`if not options_text`). -/
def set_dropdown_options (env : Nat → PollAttempt) : List String :=
  if pollLoop env 10 0 [] = [] then ["指示なし"] else pollLoop env 10 0 []

/-- Helper for `pyInt`: the value of a non-empty all-ASCII-digit string, `none`
as soon as a non-digit appears. -/
def digitsToNatAux : List Char → Nat → Option Nat
  | [], acc => some acc
  | c :: rest, acc =>
    if c.isDigit then digitsToNatAux rest (acc * 10 + (c.toNat - '0'.toNat))
    else none

/-- Helper for `pyInt`: reject the empty digit run. -/
def digitsToNat (l : List Char) : Option Nat :=
  if l.isEmpty then none else digitsToNatAux l 0

/-- Python `int(val)` as used at line 151, restricted to ASCII numerals:
surrounding whitespace is tolerated, an optional sign is followed by a
non-empty digit run; `none` is the `ValueError` caught at line 154. -/
def pyInt (s : String) : Option Int :=
  match (pyStrip s).data with
  | '+' :: rest => (digitsToNat rest).map (fun n => (n : Int))
  | '-' :: rest => (digitsToNat rest).map (fun n => -(n : Int))
  | l => (digitsToNat l).map (fun n => (n : Int))

/-- Result of `ask_user_selection` on a scripted input stream: a choice was
returned, or `options_list[0]` raised an uncaught `IndexError` (`crash`,
possible only for an empty option list), or the scripted inputs ran out with
the loop still prompting (`pending`). -/
inductive AskResult where
  | chosen (s : String)
  | crash
  | pending
deriving DecidableEq

/-- `ask_user_selection(label_name, options_list)` from lines 131-156, applied
to the stream of operator inputs: the empty input returns `options_list[0]`;
an input parsing as an in-range index returns that option; a `ValueError`
from `int(val)` or an out-of-range index prints an error and prompts again. -/
def ask_user_selection (opts : List String) : List String → AskResult
  | [] => AskResult.pending
  | v :: rest =>
    if v = "" then
      match opts.get? 0 with
      | some s => AskResult.chosen s
      | none => AskResult.crash
    else
      match pyInt v with
      | some idx =>
        if h : 0 ≤ idx ∧ idx < (opts.length : Int) then
          AskResult.chosen (opts.get ⟨idx.toNat, by omega⟩)
        else ask_user_selection opts rest
      | none => ask_user_selection opts rest

/-- `Select(elem).select_by_visible_text(selected_text)` from line 195: the
applied option is the first one whose visible text equals the requested text
exactly; `none` is the `NoSuchElementException` caught at line 197. -/
def applyByVisibleText (domOpts : List String) (t : String) : Option String :=
  domOpts.find? (fun o => o == t)

/-- How the body of the `try` block of `main` (lines 240-353) ends: it runs to
the end, it takes one of the early `return` statements (lines 265, 278), or it
raises an exception with message `e`. -/
inductive BodyOutcome where
  | normal
  | earlyReturn
  | raise (e : String)
deriving DecidableEq

/-- The externally visible session state that the `except`/`finally` footer of
`main` touches: the screenshots written so far, and how many times
`driver.quit()` ran. -/
structure Sys where
  screenshots : List String
  quitCount : Nat
deriving DecidableEq

/-- The `except Exception`/`finally` footer of `main` (lines 355-360) applied
to a body outcome: an exception is caught by the single top-level handler,
which writes the screenshot `fatal_error.png`; the `finally` block then runs
`driver.quit()` on every path.  The second component is the exception that
propagates out of `main`, which is always `none` because `except Exception`
catches everything the body can raise. -/
def mainFinish (b : BodyOutcome) (s : Sys) : Sys × Option String :=
  match b with
  | BodyOutcome.raise _ =>
    ({ screenshots := s.screenshots ++ ["fatal_error.png"],
       quitCount := s.quitCount + 1 }, none)
  | BodyOutcome.normal =>
    ({ screenshots := s.screenshots, quitCount := s.quitCount + 1 }, none)
  | BodyOutcome.earlyReturn =>
    ({ screenshots := s.screenshots, quitCount := s.quitCount + 1 }, none)

/-! ## Helper lemmas -/

/-- A head-anchored match only uses characters of the searched list. -/
theorem leadMatch_subset {t s : List Char} (h : leadMatch t s = true) :
    ∀ c ∈ t, c ∈ s := by
  induction t generalizing s with
  | nil => intro c hc; cases hc
  | cons a as ih =>
    cases s with
    | nil => simp [leadMatch] at h
    | cons b bs =>
      simp only [leadMatch, Bool.and_eq_true, beq_iff_eq] at h
      intro c hc
      rcases List.mem_cons.mp hc with hc | hc
      · exact List.mem_cons.mpr (Or.inl (hc.trans h.1))
      · exact List.mem_cons.mpr (Or.inr (ih h.2 c hc))

/-- A substring only uses characters of the searched list. -/
theorem containsSub_subset {t s : List Char} (h : containsSub t s = true) :
    ∀ c ∈ t, c ∈ s := by
  induction s with
  | nil =>
    intro c hc
    simp only [containsSub, List.isEmpty_iff] at h
    subst h; cases hc
  | cons b bs ih =>
    simp only [containsSub, Bool.or_eq_true] at h
    intro c hc
    rcases h with h | h
    · exact leadMatch_subset h c hc
    · exact List.mem_cons.mpr (Or.inr (ih h c hc))

/-- A space character never survives the option-text cleanup. -/
theorem stripSpaces_no_space {c : Char} (hc : isStrippedSpace c = true)
    (s : String) : c ∉ (stripSpaces s).data := by
  intro hmem
  have := (List.mem_filter.mp hmem).2
  rw [hc] at this
  cases this

/-- If the target itself holds a space character, then no option matches. -/
theorem optMatches_eq_false_of_space {target : String}
    (h : ' ' ∈ target.data ∨ '　' ∈ target.data) (optText : String) :
    optMatches target optText = false := by
  cases hb : optMatches target optText with
  | false => rfl
  | true =>
    exfalso
    rcases h with h | h
    · exact stripSpaces_no_space (by rfl) optText (containsSub_subset hb _ h)
    · exact stripSpaces_no_space (by rfl) optText (containsSub_subset hb _ h)

/-- If the target itself holds a space character, the scan of one option list
finds nothing. -/
theorem findFirstMatch_eq_none_of_space {target : String}
    (h : ' ' ∈ target.data ∨ '　' ∈ target.data) (opts : List String) :
    findFirstMatch target opts = none := by
  apply List.find?_eq_none.mpr
  intro t _
  rw [optMatches_eq_false_of_space h t]
  exact Bool.false_ne_true

/-- `find?` returns the element at the first index satisfying the test. -/
theorem find_first_aux {α : Type} (p : α → Bool) (l : List α) :
    ∀ (j : Nat) (hj : j < l.length), p (l.get ⟨j, hj⟩) = true →
      (∀ k (hk : k < l.length), k < j → p (l.get ⟨k, hk⟩) = false) →
      l.find? p = some (l.get ⟨j, hj⟩) := by
  induction l with
  | nil => intro j hj; exact absurd hj (by simp)
  | cons a tl ih =>
    intro j hj hm hf
    cases j with
    | zero => exact List.find?_cons_of_pos tl hm
    | succ n =>
      have ha : p a = false := hf 0 (by omega) (by omega)
      rw [List.find?_cons_of_neg tl (by rw [ha]; exact Bool.false_ne_true)]
      exact ih n (by simpa using hj) hm
        (fun k hk hkn => hf (k + 1) (by simpa using hk) (by omega))

/-- One step of the selection retry loop when the current attempt matches and
the selection call goes through. -/
theorem selectLoop_succ_found {env : Nat → AttemptEnv} {target t : String}
    {opts : List String} (fuel i : Nat)
    (henv : env i = AttemptEnv.options opts true)
    (hfind : findFirstMatch target opts = some t) :
    selectLoop env target (fuel + 1) i = some t := by
  simp [selectLoop, henv, hfind]

/-- One step of the selection retry loop when the current attempt sees no
matching option. -/
theorem selectLoop_succ_retry {env : Nat → AttemptEnv} {target : String}
    {opts : List String} {selOk : Bool} (fuel i : Nat)
    (henv : env i = AttemptEnv.options opts selOk)
    (hfind : findFirstMatch target opts = none) :
    selectLoop env target (fuel + 1) i = selectLoop env target fuel (i + 1) := by
  simp [selectLoop, henv, hfind]

/-- One step of the selection retry loop when the current attempt raises. -/
theorem selectLoop_succ_raise {env : Nat → AttemptEnv} {target : String}
    (fuel i : Nat) (henv : env i = AttemptEnv.raise) :
    selectLoop env target (fuel + 1) i = selectLoop env target fuel (i + 1) := by
  simp [selectLoop, henv]

/-- One step of the selection retry loop when the scan matches but the
selection call raises. -/
theorem selectLoop_succ_noSel {env : Nat → AttemptEnv} {target t : String}
    {opts : List String} (fuel i : Nat)
    (henv : env i = AttemptEnv.options opts false)
    (hfind : findFirstMatch target opts = some t) :
    selectLoop env target (fuel + 1) i = selectLoop env target fuel (i + 1) := by
  simp [selectLoop, henv, hfind]

/-- With a space in the target, every run of the retry loop fails. -/
theorem selectLoop_isNone_of_space {target : String}
    (h : ' ' ∈ target.data ∨ '　' ∈ target.data) (env : Nat → AttemptEnv) :
    ∀ fuel i, selectLoop env target fuel i = none := by
  intro fuel
  induction fuel with
  | zero => intro i; rfl
  | succ n ih =>
    intro i
    cases henv : env i with
    | raise => rw [selectLoop_succ_raise n i henv]; exact ih (i + 1)
    | options opts selOk =>
      rw [selectLoop_succ_retry n i henv (findFirstMatch_eq_none_of_space h opts)]
      exact ih (i + 1)

/-- Soundness of the retry loop: a returned option text was found by the scan
of the option list of some attempt, and the selection call of that attempt
went through. -/
theorem selectLoop_sound {env : Nat → AttemptEnv} {target t : String} :
    ∀ fuel i, selectLoop env target fuel i = some t →
      optMatches target t = true ∧
        ∃ j opts, i ≤ j ∧ j < i + fuel ∧
          env j = AttemptEnv.options opts true ∧ t ∈ opts := by
  intro fuel
  induction fuel with
  | zero => intro i h; cases h
  | succ n ih =>
    intro i h
    cases henv : env i with
    | raise =>
      rw [selectLoop_succ_raise n i henv] at h
      obtain ⟨h1, j, opts, hj1, hj2, hj3, hj4⟩ := ih (i + 1) h
      exact ⟨h1, j, opts, by omega, by omega, hj3, hj4⟩
    | options opts selOk =>
      cases hfind : findFirstMatch target opts with
      | none =>
        rw [selectLoop_succ_retry n i henv hfind] at h
        obtain ⟨h1, j, opts2, hj1, hj2, hj3, hj4⟩ := ih (i + 1) h
        exact ⟨h1, j, opts2, by omega, by omega, hj3, hj4⟩
      | some u =>
        cases selOk with
        | false =>
          rw [selectLoop_succ_noSel n i henv hfind] at h
          obtain ⟨h1, j, opts2, hj1, hj2, hj3, hj4⟩ := ih (i + 1) h
          exact ⟨h1, j, opts2, by omega, by omega, hj3, hj4⟩
        | true =>
          rw [selectLoop_succ_found n i henv hfind] at h
          cases h
          refine ⟨List.find?_some hfind, i, opts, le_refl i, by omega, henv, ?_⟩
          exact List.mem_of_find?_eq_some hfind

/-! ## Claim C1 -/

/-- Claim C1, counterexample to the claim as stated.  For the single-option
list whose option text is "A", tab, "B" and the target "AB": stripping all
whitespace from the option text yields "AB", which contains the target, so
the claim requires the first (and only) option to be selected; the code of
`safe_select_by_text` removes only the standard and full-width space
characters, leaves the tab in place, finds no match on any of its five
attempts, and returns failure without selecting anything. -/
theorem C1_counterexample :
    specStripAllWhitespace "A\tB" = "AB"
      ∧ containsSub "AB".data (specStripAllWhitespace "A\tB").data = true
      ∧ safe_select_by_text (fun _ => AttemptEnv.options ["A\tB"] true) "AB" 5
          = none :=
  ⟨rfl, rfl, rfl⟩

/-- Claim C1 (amended: the stripping removes every standard-space and
full-width-space character, not every whitespace character): for every option
list and target, if the option at position `j` is the earliest whose display
text, after removal of all standard and full-width spaces, contains the
target substring, then `safe_select_by_text` selects exactly that option. -/
theorem C1_first_match (opts : List String) (target : String) (j : Nat)
    (hj : j < opts.length)
    (hm : optMatches target (opts.get ⟨j, hj⟩) = true)
    (hf : ∀ k (hk : k < opts.length), k < j →
      optMatches target (opts.get ⟨k, hk⟩) = false) :
    safe_select_by_text (fun _ => AttemptEnv.options opts true) target 5
      = some (opts.get ⟨j, hj⟩) := by
  have hfind : findFirstMatch target opts = some (opts.get ⟨j, hj⟩) :=
    find_first_aux (fun t => optMatches target t) opts j hj hm hf
  exact selectLoop_succ_found 4 0 rfl hfind

/-- Witness for C1: with options `["Z", "A B", "AB"]` and target `"AB"`, both
the second and third options qualify after space removal and the second one,
the earliest, is selected. -/
theorem C1_first_match_witness :
    safe_select_by_text (fun _ => AttemptEnv.options ["Z", "A B", "AB"] true)
      "AB" 5 = some ((["Z", "A B", "AB"] : List String).get ⟨1, by decide⟩) :=
  C1_first_match ["Z", "A B", "AB"] "AB" 1 (by decide) (by decide) (by decide)

/-! ## Claim C6 -/

/-- Claim C6: if the option list re-enumerated on each attempt holds only the
"unspecified" sentinel on the first two attempts and has grown to four options
by the third attempt, with the target matching an option of the grown list but
none of the initial one, then `safe_select_by_text` selects from the grown
list and succeeds: the selection is made against the state of the list at the
matching attempt, not the initial state. -/
theorem C6_grown_list (env : Nat → AttemptEnv) (target t : String)
    (l2 : List String) (ok0 ok1 : Bool)
    (h0 : env 0 = AttemptEnv.options ["指示なし"] ok0)
    (h1 : env 1 = AttemptEnv.options ["指示なし"] ok1)
    (h2 : env 2 = AttemptEnv.options l2 true)
    (hlen : l2.length = 4)
    (hno : findFirstMatch target ["指示なし"] = none)
    (hyes : findFirstMatch target l2 = some t) :
    safe_select_by_text env target 5 = some t := by
  show selectLoop env target (4 + 1) 0 = some t
  rw [selectLoop_succ_retry 4 0 h0 hno]
  show selectLoop env target (3 + 1) 1 = some t
  rw [selectLoop_succ_retry 3 1 h1 hno]
  exact selectLoop_succ_found 2 2 h2 hyes

/-- Witness for C6: the list grows from the lone sentinel to four weekday
options on the third attempt and the matching option is selected. -/
theorem C6_grown_list_witness :
    safe_select_by_text
      (fun i => if i < 2 then AttemptEnv.options ["指示なし"] true
        else AttemptEnv.options ["指示なし", "月曜", "火曜", "水曜"] true)
      "火曜" 5 = some "火曜" :=
  C6_grown_list _ "火曜" "火曜" ["指示なし", "月曜", "火曜", "水曜"] true true
    rfl rfl rfl rfl rfl rfl

/-! ## Claim C8 -/

/-- Claim C8: whenever `safe_select_by_text` succeeds, the selected option
came from the option list observed on some attempt and its display text,
stripped of standard and full-width spaces, contains the target substring;
since the embedding selects an option exactly when it returns a text, no
option is ever selected without passing the substring test. -/
theorem C8_selection_sound (env : Nat → AttemptEnv) (target t : String)
    (max_retries : Nat)
    (h : safe_select_by_text env target max_retries = some t) :
    optMatches target t = true ∧
      ∃ j opts, j < max_retries ∧ env j = AttemptEnv.options opts true
        ∧ t ∈ opts := by
  obtain ⟨h1, j, opts, hj1, hj2, hj3, hj4⟩ := selectLoop_sound max_retries 0 h
  exact ⟨h1, j, opts, by omega, hj3, hj4⟩

/-- Witness for C8 at a concrete run that selects the option "A B". -/
theorem C8_selection_sound_witness :
    optMatches "AB" "A B" = true ∧
      ∃ j opts, j < 5
        ∧ (fun _ : Nat => AttemptEnv.options ["A B"] true) j
            = AttemptEnv.options opts true
        ∧ "A B" ∈ opts :=
  C8_selection_sound (fun _ => AttemptEnv.options ["A B"] true) "AB" "A B" 5 rfl

/-! ## Claim C10 -/

/-- Claim C10: a target substring that itself holds a standard space or a
full-width space can never be found, because those characters are removed
from every option text before the substring test while the target is left
unmodified, so `safe_select_by_text` always returns failure on such a
target — for every environment and every retry bound. -/
theorem C10_space_target_fails (target : String)
    (h : ' ' ∈ target.data ∨ '　' ∈ target.data)
    (env : Nat → AttemptEnv) (max_retries : Nat) :
    safe_select_by_text env target max_retries = none :=
  selectLoop_isNone_of_space h env max_retries 0

/-- Witness for C10: the target "a b" holds a space, so even an option list
whose space-stripped entry "ab" would otherwise qualify is never matched. -/
theorem C10_space_target_fails_witness :
    (' ' ∈ "a b".data ∨ '　' ∈ "a b".data)
      ∧ safe_select_by_text (fun _ => AttemptEnv.options ["ab"] true) "a b" 5
          = none :=
  ⟨Or.inl (by decide),
   C10_space_target_fails "a b" (Or.inl (by decide))
     (fun _ => AttemptEnv.options ["ab"] true) 5⟩

/-! ## Claim C2 -/

/-- Claim C2: the year prompt accepts "2025" as-is; the empty input is
defaulted to "2025"; every non-empty input that is not exactly 4 digits is
rejected and the operator is prompted again; and whenever the loop
terminates, the year is "2025" or a string of exactly 4 digit characters. -/
theorem C2_year_prompt :
    (∀ rest, yearLoop ("2025" :: rest) = some "2025")
      ∧ (∀ rest, yearLoop ("" :: rest) = some "2025")
      ∧ (∀ s rest, ¬(pyIsdigit s = true ∧ s.length = 4) → s ≠ "" →
          yearLoop (s :: rest) = yearLoop rest)
      ∧ (∀ inputs y, yearLoop inputs = some y →
          y = "2025" ∨ (pyIsdigit y = true ∧ y.length = 4)) := by
  refine ⟨fun rest => rfl, fun rest => rfl, ?_, ?_⟩
  · intro s rest hne hs
    have hb : ¬((pyIsdigit s && s.length == 4) = true) := by
      simpa [Bool.and_eq_true] using hne
    rw [yearLoop, if_neg hb, if_neg hs]
  · intro inputs
    induction inputs with
    | nil => intro y h; cases h
    | cons s rest ih =>
      intro y h
      rw [yearLoop] at h
      by_cases h1 : (pyIsdigit s && s.length == 4) = true
      · rw [if_pos h1] at h
        cases h
        right
        simpa [Bool.and_eq_true] using h1
      · rw [if_neg h1] at h
        by_cases h2 : s = ""
        · rw [if_pos h2] at h
          cases h
          left
          rfl
        · rw [if_neg h2] at h
          exact ih y h

/-- Witness for C2: the input "25" is rejected and the prompt repeats; the
following empty input is defaulted to "2025". -/
theorem C2_year_prompt_witness :
    yearLoop ["25", ""] = yearLoop [""] ∧ yearLoop [""] = some "2025" :=
  ⟨C2_year_prompt.2.2.1 "25" [""] (by decide) (by decide),
   C2_year_prompt.2.1 []⟩

/-! ## Claim C3 -/

/-- After a failed run of the send-keys retry loop, no attempt in range had
succeeded. -/
theorem sendLoop_false {env : Nat → SendAttempt} :
    ∀ fuel i, sendLoop env fuel i = false →
      ∀ j, i ≤ j → j < i + fuel → env j ≠ SendAttempt.ok := by
  intro fuel
  induction fuel with
  | zero => intro i h j h1 h2; omega
  | succ n ih =>
    intro i h j h1 h2
    cases henv : env i with
    | ok => rw [sendLoop, henv] at h; cases h
    | staleOrTimeout =>
      have hstep : sendLoop env (n + 1) i = sendLoop env n (i + 1) := by
        rw [sendLoop, henv]
      rw [hstep] at h
      rcases Nat.lt_or_ge j (i + 1) with hj | hj
      · have hij : j = i := by omega
        subst hij
        rw [henv]
        intro hc
        cases hc
      · exact ih (i + 1) h j hj (by omega)
    | otherError =>
      have hstep : sendLoop env (n + 1) i = sendLoop env n (i + 1) := by
        rw [sendLoop, henv]
      rw [hstep] at h
      rcases Nat.lt_or_ge j (i + 1) with hj | hj
      · have hij : j = i := by omega
        subst hij
        rw [henv]
        intro hc
        cases hc
      · exact ih (i + 1) h j hj (by omega)

/-- One step of the send-keys retry loop when the current attempt fails. -/
theorem sendLoop_step_fail {env : Nat → SendAttempt} (fuel i : Nat)
    (h : env i ≠ SendAttempt.ok) :
    sendLoop env (fuel + 1) i = sendLoop env fuel (i + 1) := by
  cases henv : env i with
  | ok => exact absurd henv h
  | staleOrTimeout => rw [sendLoop, henv]
  | otherError => rw [sendLoop, henv]

/-- One step of the send-keys retry loop when the current attempt succeeds. -/
theorem sendLoop_step_ok {env : Nat → SendAttempt} (fuel i : Nat)
    (h : env i = SendAttempt.ok) :
    sendLoop env (fuel + 1) i = true := by
  rw [sendLoop, h]

/-- Claim C3: for every sequence of attempt outcomes, `safe_send_keys`
returns `False` only when none of the `max_retries` attempts succeeded (so
failure is reported only after all attempts were made, and the loop itself
never lets an exception escape: every outcome is a Boolean); and in the
scenario where attempts 1 and 2 hit a stale-element condition and attempt 3
succeeds, the overall result is `True`. -/
theorem C3_send_keys_retry :
    (∀ (env : Nat → SendAttempt) (max_retries : Nat),
        safe_send_keys env max_retries = false →
          ∀ j, j < max_retries → env j ≠ SendAttempt.ok)
      ∧ (∀ env : Nat → SendAttempt,
          env 0 = SendAttempt.staleOrTimeout →
          env 1 = SendAttempt.staleOrTimeout →
          env 2 = SendAttempt.ok → safe_send_keys env 5 = true) := by
  constructor
  · intro env n h j hj
    exact sendLoop_false n 0 h j (Nat.zero_le j) (by omega)
  · intro env h0 h1 h2
    show sendLoop env (4 + 1) 0 = true
    rw [sendLoop_step_fail 4 0 (by rw [h0]; intro hc; cases hc)]
    show sendLoop env (3 + 1) 1 = true
    rw [sendLoop_step_fail 3 1 (by rw [h1]; intro hc; cases hc)]
    exact sendLoop_step_ok 2 2 h2
/-- Witness for C3: stale on the first two attempts, success on the third. -/
theorem C3_send_keys_retry_witness :
    safe_send_keys
      (fun i => if i = 2 then SendAttempt.ok else SendAttempt.staleOrTimeout)
      5 = true :=
  C3_send_keys_retry.2
    (fun i => if i = 2 then SendAttempt.ok else SendAttempt.staleOrTimeout)
    rfl rfl rfl

/-! ## Claims C4 and C9 -/

/-- A position below the length of a list is occupied. -/
theorem get?_isSome_of_lt {α : Type} {l : List α} {n : Nat} (h : n < l.length) :
    ∃ c, l.get? n = some c := by
  cases hc : l.get? n with
  | none => exact absurd (List.get?_eq_none.mp hc) (by omega)
  | some c => exact ⟨c, rfl⟩

/-- On a row with at least 7 cells, the extraction of one row reduces to the
subject-cell test, with every cell access in bounds. -/
theorem rowRecord_of_long (y d : String) (cells : List String)
    (h7 : 7 ≤ cells.length) :
    (cells.get? 3).isSome = true ∧ (cells.get? 5).isSome = true
      ∧ (cells.get? 6).isSome = true
      ∧ rowRecord y d cells
          = (if pyStrip (cells.getD 5 "") = "" then none
             else some ⟨y, d, pyStrip (cells.getD 5 ""),
               pyStrip (cells.getD 6 ""),
               stripNewlines (pyStrip (cells.getD 3 ""))⟩) := by
  obtain ⟨c3, hc3⟩ := get?_isSome_of_lt (show 3 < cells.length by omega)
  obtain ⟨c5, hc5⟩ := get?_isSome_of_lt (show 5 < cells.length by omega)
  obtain ⟨c6, hc6⟩ := get?_isSome_of_lt (show 6 < cells.length by omega)
  have hg3 : cells.getD 3 "" = c3 := by rw [List.getD_eq_get?, hc3]; rfl
  have hg5 : cells.getD 5 "" = c5 := by rw [List.getD_eq_get?, hc5]; rfl
  have hg6 : cells.getD 6 "" = c6 := by rw [List.getD_eq_get?, hc6]; rfl
  refine ⟨by rw [hc3]; rfl, by rw [hc5]; rfl, by rw [hc6]; rfl, ?_⟩
  rw [rowRecord, if_neg (by omega), hc3, hc5, hc6, hg3, hg5, hg6]

/-- Claim C4: a row contributes a record exactly when it has at least 7 cells
and its stripped subject cell (index 5) is non-empty; the retained records
appear in table row order (extraction distributes over concatenation of the
row list); and duplicate rows yield duplicate records. -/
theorem C4_row_filter :
    (∀ y d (cells : List String),
        (rowRecord y d cells).isSome = true ↔
          (7 ≤ cells.length ∧ pyStrip (cells.getD 5 "") ≠ ""))
      ∧ (∀ y d rows1 rows2, extractRows y d (rows1 ++ rows2)
            = extractRows y d rows1 ++ extractRows y d rows2)
      ∧ (∀ y d row r, rowRecord y d row = some r →
          extractRows y d [row, row] = [r, r]) := by
  refine ⟨?_, ?_, ?_⟩
  · intro y d cells
    by_cases hlen : cells.length < 7
    · rw [rowRecord, if_pos hlen]
      simp only [Option.isSome_none]
      constructor
      · intro h; cases h
      · intro h; exact absurd h.1 (by omega)
    · have h7 : 7 ≤ cells.length := by omega
      obtain ⟨-, -, -, hrr⟩ := rowRecord_of_long y d cells h7
      by_cases hemp : pyStrip (cells.getD 5 "") = ""
      · rw [hrr, if_pos hemp]
        simp only [Option.isSome_none]
        constructor
        · intro h; cases h
        · intro h; exact absurd hemp h.2
      · rw [hrr, if_neg hemp]
        constructor
        · intro h; exact ⟨h7, hemp⟩
        · intro h; rfl
  · intro y d rows1 rows2
    induction rows1 with
    | nil => rfl
    | cons row rest ih =>
      cases hr : rowRecord y d row with
      | some r =>
        simp only [List.cons_append, extractRows, hr, List.append_eq, ih]
      | none =>
        simp only [List.cons_append, extractRows, hr, List.append_eq, ih]
  · intro y d row r hr
    simp [extractRows, hr]

/-- Witness for C4: a duplicated qualifying row produces two identical
records, in row order. -/
theorem C4_row_filter_witness :
    extractRows "2025" "CS" [["a", "b", "c", "月1", "e", "数学", "田中"],
      ["a", "b", "c", "月1", "e", "数学", "田中"]]
      = [⟨"2025", "CS", "数学", "田中", "月1"⟩,
         ⟨"2025", "CS", "数学", "田中", "月1"⟩] :=
  C4_row_filter.2.2 "2025" "CS" ["a", "b", "c", "月1", "e", "数学", "田中"]
    ⟨"2025", "CS", "数学", "田中", "月1"⟩ rfl

/-- Claim C9: in the extraction loop, the cell accesses at indices 3, 5 and 6
happen only after the 7-cell guard has passed, and are then always in bounds:
the positions are occupied and the extraction is fully determined by the
subject-cell test, never taking the exception fallback path. -/
theorem C9_cells_in_bounds (y d : String) (cells : List String)
    (h7 : 7 ≤ cells.length) :
    (cells.get? 3).isSome = true ∧ (cells.get? 5).isSome = true
      ∧ (cells.get? 6).isSome = true
      ∧ rowRecord y d cells
          = (if pyStrip (cells.getD 5 "") = "" then none
             else some ⟨y, d, pyStrip (cells.getD 5 ""),
               pyStrip (cells.getD 6 ""),
               stripNewlines (pyStrip (cells.getD 3 ""))⟩) :=
  rowRecord_of_long y d cells h7

/-- Witness for C9 on a concrete 7-cell row. -/
theorem C9_cells_in_bounds_witness :
    ((["a", "b", "c", "月1", "e", "数学", "田中"] : List String).get? 3).isSome
        = true
      ∧ ((["a", "b", "c", "月1", "e", "数学", "田中"] : List String).get? 5).isSome
          = true
      ∧ ((["a", "b", "c", "月1", "e", "数学", "田中"] : List String).get? 6).isSome
          = true
      ∧ rowRecord "2025" "CS" ["a", "b", "c", "月1", "e", "数学", "田中"]
          = (if pyStrip ((["a", "b", "c", "月1", "e", "数学", "田中"] :
                List String).getD 5 "") = "" then none
             else some ⟨"2025", "CS",
               pyStrip ((["a", "b", "c", "月1", "e", "数学", "田中"] :
                 List String).getD 5 ""),
               pyStrip ((["a", "b", "c", "月1", "e", "数学", "田中"] :
                 List String).getD 6 ""),
               stripNewlines (pyStrip ((["a", "b", "c", "月1", "e", "数学",
                 "田中"] : List String).getD 3 ""))⟩) :=
  C9_cells_in_bounds "2025" "CS" ["a", "b", "c", "月1", "e", "数学", "田中"]
    (by decide)

/-! ## Claim C5 -/

/-- If no polling iteration in range ever enumerates an option, the polling
loop ends with an empty accumulator. -/
theorem pollLoop_empty {env : Nat → PollAttempt} :
    ∀ fuel i,
      (∀ j, i ≤ j → j < i + fuel →
        env j = PollAttempt.err ∨ env j = PollAttempt.opts []) →
      pollLoop env fuel i [] = [] := by
  intro fuel
  induction fuel with
  | zero => intro i h; rfl
  | succ n ih =>
    intro i h
    rcases h i (le_refl i) (by omega) with he | he
    · have hstep : pollLoop env (n + 1) i [] = pollLoop env n (i + 1) [] := by
        rw [pollLoop, he]
      rw [hstep]
      exact ih (i + 1) (fun j h1 h2 => h j (by omega) (by omega))
    · have hstep : pollLoop env (n + 1) i [] = pollLoop env n (i + 1) [] := by
        rw [pollLoop, he]
        rfl
      rw [hstep]
      exact ih (i + 1) (fun j h1 h2 => h j (by omega) (by omega))

/-- Claim C5: when the polling phase of `set_dropdown_field` never enumerates
any option, the operator is presented with exactly the single-element list
holding the "unspecified" sentinel; during the prompt, the empty input
selects the first option, a non-numeric or out-of-range input prompts again;
and the chosen value is applied by exact visible-text selection (the applied
option text equals the requested text). -/
theorem C5_dropdown_prompt :
    (∀ env : Nat → PollAttempt,
        (∀ i, i < 10 → env i = PollAttempt.err ∨ env i = PollAttempt.opts []) →
          set_dropdown_options env = ["指示なし"])
      ∧ (∀ (a : String) (opts rest : List String),
          ask_user_selection (a :: opts) ("" :: rest) = AskResult.chosen a)
      ∧ (∀ (opts : List String) (v : String) (rest : List String),
          v ≠ "" → pyInt v = none →
            ask_user_selection opts (v :: rest) = ask_user_selection opts rest)
      ∧ (∀ (opts : List String) (v : String) (idx : Int) (rest : List String),
          v ≠ "" → pyInt v = some idx →
            ¬(0 ≤ idx ∧ idx < (opts.length : Int)) →
              ask_user_selection opts (v :: rest) = ask_user_selection opts rest)
      ∧ (∀ (domOpts : List String) (t u : String),
          applyByVisibleText domOpts t = some u → u = t) := by
  refine ⟨?_, ?_, ?_, ?_, ?_⟩
  · intro env h
    have hp : pollLoop env 10 0 [] = [] :=
      pollLoop_empty 10 0 (fun j h1 h2 => h j (by omega))
    rw [set_dropdown_options, if_pos hp]
  · intro a opts rest
    rfl
  · intro opts v rest hv hint
    rw [ask_user_selection, if_neg hv, hint]
  · intro opts v idx rest hv hint hrange
    rw [ask_user_selection, if_neg hv, hint]
    exact dif_neg hrange
  · intro domOpts t u h
    have h2 : domOpts.find? (fun o => o == t) = some u := h
    have h3 : (u == t) = true :=
      @List.find?_some String (fun o => o == t) u domOpts h2
    exact eq_of_beq h3

/-- Witness for C5: an environment that always raises leaves the sentinel
list, and the non-numeric input "abc" causes a re-prompt. -/
theorem C5_dropdown_prompt_witness :
    set_dropdown_options (fun _ => PollAttempt.err) = ["指示なし"]
      ∧ ask_user_selection ["指示なし"] ["abc"]
          = ask_user_selection ["指示なし"] [] :=
  ⟨C5_dropdown_prompt.1 (fun _ => PollAttempt.err) (fun i _ => Or.inl rfl),
   C5_dropdown_prompt.2.2.1 ["指示なし"] "abc" [] (by decide) rfl⟩

/-! ## Claim C7 -/

/-- Claim C7: for every way the session body ends (normal completion, early
return, or an unexpected exception), the exception is caught by the single
top-level handler and nothing propagates out of `main`; `driver.quit()` runs
exactly once on every exit path; and exactly on the exception path one
screenshot is written, to the fixed filename "fatal_error.png". -/
theorem C7_teardown :
    (∀ b s, (mainFinish b s).2 = none)
      ∧ (∀ b s, (mainFinish b s).1.quitCount = s.quitCount + 1)
      ∧ (∀ e s, (mainFinish (BodyOutcome.raise e) s).1.screenshots
            = s.screenshots ++ ["fatal_error.png"])
      ∧ (∀ s, (mainFinish BodyOutcome.normal s).1.screenshots = s.screenshots)
      ∧ (∀ s, (mainFinish BodyOutcome.earlyReturn s).1.screenshots
            = s.screenshots) := by
  refine ⟨?_, ?_, ?_, ?_, ?_⟩
  · intro b s
    cases b <;> rfl
  · intro b s
    cases b <;> rfl
  · intro e s
    rfl
  · intro s
    rfl
  · intro s
    rfl
